import Mathlib

/-!
Verification of the LarkGate gateway (TypeScript source) against its
specification. The TypeScript classes `OAuthService`, `InstanceManager`
(src/services/oauthService.ts) and `RequestRouter` are shallowly embedded
below: JavaScript `Map`s become association lists over `String` keys,
`Date` timestamps become `Int` milliseconds, child processes become records
carrying the `killed` flag and the list of signals sent, and every external
HTTP/IdP/spawn interaction becomes an explicit environment parameter, so
each method is a pure state transformer.
-/

namespace LarkGate

/-! ### JavaScript Map as an association list (unique keys, insertion order) -/

/-- Models Map.get: value of the first entry with the given key. -/
def lookupA {α : Type} : List (String × α) → String → Option α
  | [], _ => none
  | p :: t, k => if p.1 = k then some p.2 else lookupA t k

/-- Models Map.set: replace the first entry with the key in place, else append. -/
def setA {α : Type} : List (String × α) → String → α → List (String × α)
  | [], k, v => [(k, v)]
  | p :: t, k, v => if p.1 = k then (k, v) :: t else p :: setA t k v

/-- Models Map.delete: drop the entries with the given key. -/
def eraseA {α : Type} : List (String × α) → String → List (String × α)
  | [], _ => []
  | p :: t, k => if p.1 = k then eraseA t k else p :: eraseA t k

theorem lookupA_eraseA {α : Type} (l : List (String × α)) (k : String) :
    lookupA (eraseA l k) k = none := by
  induction l with
  | nil => rfl
  | cons p t ih =>
    by_cases h : p.1 = k
    · simpa [eraseA, h] using ih
    · simpa [eraseA, lookupA, h] using ih

theorem lookupA_eraseA_other {α : Type} (l : List (String × α)) (k j : String)
    (h : j ≠ k) : lookupA (eraseA l k) j = lookupA l j := by
  induction l with
  | nil => rfl
  | cons p t ih =>
    by_cases hp : p.1 = k
    · have hpj : ¬ p.1 = j := fun e => h (e ▸ hp)
      rw [eraseA, if_pos hp, lookupA, if_neg hpj]
      exact ih
    · rw [eraseA, if_neg hp]
      by_cases hpj : p.1 = j
      · rw [lookupA, lookupA, if_pos hpj, if_pos hpj]
      · rw [lookupA, lookupA, if_neg hpj, if_neg hpj]
        exact ih

theorem lookupA_setA_self {α : Type} (l : List (String × α)) (k : String) (v : α) :
    lookupA (setA l k v) k = some v := by
  induction l with
  | nil => rw [setA, lookupA, if_pos rfl]
  | cons p t ih =>
    by_cases h : p.1 = k
    · rw [setA, if_pos h, lookupA, if_pos rfl]
    · rw [setA, if_neg h, lookupA, if_neg h]
      exact ih

theorem lookupA_setA_other {α : Type} (l : List (String × α)) (k j : String) (v : α)
    (h : j ≠ k) : lookupA (setA l k v) j = lookupA l j := by
  have hkj : ¬ (k : String) = j := fun e => h (Eq.symm e)
  induction l with
  | nil => simp [setA, lookupA, hkj]
  | cons p t ih =>
    by_cases hp : p.1 = k
    · have hpj : ¬ p.1 = j := fun e => h (e ▸ hp)
      rw [setA, if_pos hp, lookupA, if_neg hkj, lookupA, if_neg hpj]
    · rw [setA, if_neg hp]
      by_cases hpj : p.1 = j
      · rw [lookupA, lookupA, if_pos hpj, if_pos hpj]
      · rw [lookupA, lookupA, if_neg hpj, if_neg hpj]
        exact ih

/-! ### The OAuth state parameter split

The callback does `const [stateToken, sessionId] = state.split('_')`
(src/services/oauthService.ts line 46). JavaScript `split('_')` cuts at
every underscore; the destructuring keeps the first two fields (the second
is `undefined` when there is no underscore, modelled by `Option`). -/

/-- Models the JavaScript single-character split: cut the character list at
every underscore, keeping empty fields. -/
def splitUnderscore : List Char → List (List Char)
  | [] => [[]]
  | c :: cs =>
    if c = '_' then [] :: splitUnderscore cs
    else
      match splitUnderscore cs with
      | [] => [[c]]
      | p :: ps => (c :: p) :: ps

/-- The destructuring of the split result at oauthService.ts line 46:
first field is the state token, second (when present) the session id. -/
def parseState (s : String) : String × Option String :=
  match splitUnderscore s.toList with
  | [] => ("", none)
  | [a] => (a.asString, none)
  | a :: b :: _ => (a.asString, some b.asString)

/-- Modelled from the spec: the spec instead reads "Split the state at the
LAST underscore into (state token, session id)"; this definition follows
those words for comparison with `parseState` (claim C9). When the string
has no underscore the whole string is the token and the session id is
empty. -/
def parseStateSpecLast (s : String) : String × String :=
  let r := s.toList.reverse
  let sid := (r.takeWhile (fun c => c ≠ '_')).reverse
  let rest := r.dropWhile (fun c => c ≠ '_')
  match rest with
  | [] => (s, "")
  | _ :: pre => (pre.reverse.asString, sid.asString)

theorem splitUnderscore_ne_nil (l : List Char) : splitUnderscore l ≠ [] := by
  cases l with
  | nil => simp [splitUnderscore]
  | cons c cs =>
    rw [splitUnderscore]
    by_cases h : c = '_'
    · simp [h]
    · rw [if_neg h]
      cases splitUnderscore cs <;> simp

/-- The first field produced by the split is the longest prefix free of
underscores: the code cuts at the FIRST underscore, not the last. -/
theorem splitUnderscore_head (l : List Char) :
    ∃ ps, splitUnderscore l = l.takeWhile (fun c => c ≠ '_') :: ps := by
  induction l with
  | nil => exact ⟨[], rfl⟩
  | cons c cs ih =>
    by_cases h : c = '_'
    · refine ⟨splitUnderscore cs, ?_⟩
      simp [splitUnderscore, h, List.takeWhile]
    · obtain ⟨ps, hps⟩ := ih
      refine ⟨ps, ?_⟩
      rw [splitUnderscore, if_neg h, hps]
      simp [List.takeWhile, h]

/-! ### OAuthService (src/services/oauthService.ts lines 7-297)

External IdP calls (`exchangeCodeForToken`, `getUserInfo`, the refresh
POST) are modelled by an environment of functions returning `Except`: an
`Except.error` covers every failure the code throws for (HTTP non-2xx,
IdP-level nonzero code, network error). The on-disk per-user
`tokens.json` files are a map keyed by user id, and `Date.now()` is an
explicit `Int` argument. -/

/-- Entry of the stateStore map (oauthService.ts line 8). -/
structure StateData where
  sessionId : String
  createdAt : Int
deriving DecidableEq

/-- The body built by exchangeCodeForToken (oauthService.ts lines 100-106). -/
structure OAuthTokenResponse where
  access_token : String
  refresh_token : String
  expires_in : Int
  token_type : String
  scope : String
deriving DecidableEq

/-- Fields of getUserInfo used by the callback (oauthService.ts lines 126-133). -/
structure FeishuUserInfo where
  union_id : String
  user_id : String
  name : String
deriving DecidableEq

/-- The persisted credential record (types/index.ts UserTokens): absolute
expiry instant in ms. -/
structure UserTokens where
  userId : String
  access_token : String
  refresh_token : String
  expires_at : Int
deriving DecidableEq

/-- Body of the successful refresh response (oauthService.ts lines 214-219):
the IdP may omit the new refresh token. -/
structure RefreshData where
  access_token : String
  refresh_token : Option String
  expires_in : Int
  scope : String
deriving DecidableEq

/-- Filesystem operations performed by the token store, recorded as a trace. -/
inductive FsOp
  | mkdirRecursive (path : String)
  | writeFile (path : String) (content : UserTokens)
  | rename (src dst : String)
deriving DecidableEq

/-- Mutable state of OAuthService: the pending-state map, the in-memory
token cache (both oauthService.ts lines 8-9) and the on-disk tokens.json
files keyed by user id. -/
structure OAuthServiceState where
  stateStore : List (String × StateData)
  tokenCache : List (String × UserTokens)
  disk : List (String × UserTokens)
deriving DecidableEq

/-- The IdP environment: code exchange, user-info fetch and token refresh
(keyed by the refresh token POSTed at oauthService.ts line 200). -/
structure OAuthEnv where
  exchange : String → Except String OAuthTokenResponse
  userInfo : String → Except String FeishuUserInfo
  refresh : String → Except String RefreshData

/-- generateAuthUrl (oauthService.ts lines 24-40): store the fresh state
token and build the state query parameter `state_sessionId`. The random
token is an argument; the rest of the URL is elided. -/
def generateAuthUrl (st : OAuthServiceState) (sessionId stateToken : String)
    (now : Int) : String × OAuthServiceState :=
  (stateToken ++ "_" ++ sessionId,
   { st with stateStore := setA st.stateStore stateToken ⟨sessionId, now⟩ })

/-- saveUserTokens (oauthService.ts lines 136-154): mkdir the per-user
directory (recursive, hence idempotent), normalize the expiry to the
absolute instant now + expires_in seconds, update the cache, then write
tokens.json in place. Returns the new state and the filesystem trace. -/
def saveUserTokens (dataDir : String) (st : OAuthServiceState) (userId : String)
    (tokens : OAuthTokenResponse) (now : Int) : OAuthServiceState × List FsOp :=
  let userDir := dataDir ++ "/user-" ++ userId
  let userTokens : UserTokens :=
    { userId := userId
      access_token := tokens.access_token
      refresh_token := tokens.refresh_token
      expires_at := now + tokens.expires_in * 1000 }
  ({ st with
      tokenCache := setA st.tokenCache userId userTokens
      disk := setA st.disk userId userTokens },
   [FsOp.mkdirRecursive userDir,
    FsOp.writeFile (userDir ++ "/tokens.json") userTokens])

/-- loadUserTokens (oauthService.ts lines 156-181): cache hit returns the
cached record; otherwise read tokens.json (re-normalizing the parsed date,
identity here since the model stores the absolute instant), cache it and
return it; a missing or unreadable file yields null. -/
def loadUserTokens (st : OAuthServiceState) (userId : String) :
    Option UserTokens × OAuthServiceState :=
  match lookupA st.tokenCache userId with
  | some cached => (some cached, st)
  | none =>
    match lookupA st.disk userId with
    | some tokens => (some tokens, { st with tokenCache := setA st.tokenCache userId tokens })
    | none => (none, st)

/-- refreshUserToken (oauthService.ts lines 183-239): load, POST the stored
refresh token; on success build the new record (keeping the old refresh
token when the IdP omits one) and persist it via saveUserTokens; on any
failure drop the cache entry and return null. -/
def refreshUserToken (env : OAuthEnv) (dataDir : String) (now : Int)
    (st : OAuthServiceState) (userId : String) :
    Option UserTokens × OAuthServiceState :=
  match loadUserTokens st userId with
  | (none, st1) => (none, st1)
  | (some tokens, st1) =>
    match env.refresh tokens.refresh_token with
    | .error _ => (none, { st1 with tokenCache := eraseA st1.tokenCache userId })
    | .ok d =>
      let newTokens : UserTokens :=
        { userId := userId
          access_token := d.access_token
          refresh_token := d.refresh_token.getD tokens.refresh_token
          expires_at := now + d.expires_in * 1000 }
      let st2 := (saveUserTokens dataDir st1 userId
        { access_token := newTokens.access_token
          refresh_token := newTokens.refresh_token
          expires_in := d.expires_in
          token_type := "Bearer"
          scope := d.scope } now).1
      (some newTokens, st2)

/-- ensureValidToken (oauthService.ts lines 241-257): load; if now has
reached expiry minus five minutes, refresh; return the (possibly new,
possibly absent) credentials. -/
def ensureValidToken (env : OAuthEnv) (dataDir : String) (now : Int)
    (st : OAuthServiceState) (userId : String) :
    Option UserTokens × OAuthServiceState :=
  match loadUserTokens st userId with
  | (none, st1) => (none, st1)
  | (some tokens, st1) =>
    if now ≥ tokens.expires_at - 5 * 60 * 1000 then
      refreshUserToken env dataDir now st1 userId
    else
      (some tokens, st1)

/-- handleCallback (oauthService.ts lines 42-73): split the state parameter,
validate against the stored entry, consume the entry, then exchange the
code, fetch the identity and persist the credentials. Validation failure
leaves the state untouched; the entry is consumed before the exchange. -/
def handleCallback (env : OAuthEnv) (dataDir : String) (now : Int)
    (st : OAuthServiceState) (code stateParam : String) :
    Except String (String × String) × OAuthServiceState :=
  match lookupA st.stateStore (parseState stateParam).1 with
  | none => (.error "Invalid or expired state parameter", st)
  | some stateData =>
    if (parseState stateParam).2 = some stateData.sessionId then
      let st1 := { st with stateStore := eraseA st.stateStore (parseState stateParam).1 }
      match env.exchange code with
      | .error e => (.error e, st1)
      | .ok tokenResponse =>
        match env.userInfo tokenResponse.access_token with
        | .error e => (.error e, st1)
        | .ok info =>
          let st2 := (saveUserTokens dataDir st1 info.union_id tokenResponse now).1
          (.ok (stateData.sessionId, info.union_id), st2)
    else
      (.error "Invalid or expired state parameter", st)

/-! ### InstanceManager (src/services/oauthService.ts lines 610-975)

A child process is a record with the killed flag and the list of signals
sent through kill(); the manager holds the instances map, the per-user
index and the separate default-instance slot, exactly as the three fields
at lines 611-613. Probe and spawn outcomes come from environments. -/

/-- Worker status (types/index.ts MCPInstance.status). -/
inductive Status
  | starting
  | running
  | stopping
  | stopped
  | error
deriving DecidableEq

/-- The TS status string literals, used in the not-running error message. -/
def statusStr : Status → String
  | Status.starting => "starting"
  | Status.running => "running"
  | Status.stopping => "stopping"
  | Status.stopped => "stopped"
  | Status.error => "error"

/-- Child-process handle: killed is the flag Node sets when kill() sends a
signal, and signals records what was sent. -/
structure ChildProc where
  killed : Bool
  signals : List String
deriving DecidableEq

/-- ChildProcess.kill: record the signal and set the flag. -/
def ChildProc.kill (p : ChildProc) (sig : String) : ChildProc :=
  { killed := true, signals := p.signals ++ [sig] }

/-- Worker instance record (types/index.ts MCPInstance). -/
structure MCPInstance where
  id : String
  userId : String
  port : Int
  process : ChildProc
  status : Status
  lastActivity : Int
  createdAt : Int
  tokenDir : String
deriving DecidableEq

/-- Manager state (oauthService.ts lines 611-613): instances map, per-user
index (omits the default worker) and the default-instance slot. -/
structure InstanceManager where
  instances : List (String × MCPInstance)
  userInstances : List (String × String)
  defaultInstance : Option MCPInstance
deriving DecidableEq

/-- stopInstance (oauthService.ts lines 753-771): only an entry of the
instances map whose status is exactly running is touched; it is marked
stopping and its process receives SIGTERM. The SIGKILL five seconds later
is scheduled asynchronously and is not part of this synchronous
transition. A missing entry, or any other status, leaves the state
unchanged. -/
def stopInstance (m : InstanceManager) (instanceId : String) : InstanceManager :=
  match lookupA m.instances instanceId with
  | none => m
  | some inst =>
    if inst.status = Status.running then
      { m with
          instances := setA m.instances instanceId
            { inst with
                status := Status.stopping
                process := inst.process.kill "SIGTERM" } }
    else m

/-- shutdown (oauthService.ts lines 927-946): call stopInstance on every
key of the instances map, then on the default instance's id. -/
def shutdown (m : InstanceManager) : InstanceManager :=
  let m1 := (m.instances.map Prod.fst).foldl stopInstance m
  match m1.defaultInstance with
  | some d => stopInstance m1 d.id
  | none => m1

/-- cleanupIdleInstances (oauthService.ts lines 860-873): for every
non-default entry idle longer than the timeout, stopInstance it. -/
def cleanupIdleInstances (m : InstanceManager) (now idleTimeout : Int) :
    InstanceManager :=
  m.instances.foldl
    (fun acc p =>
      if p.2.userId = "default" then acc
      else if now - p.2.lastActivity > idleTimeout then stopInstance acc p.1
      else acc) m

/-- One instance under the liveness sweep (oauthService.ts lines 878-895):
non-running instances are skipped; a failed probe (non-2xx or thrown
fetch) sets status to error; a successful probe changes nothing. -/
def checkInstance (ok : Bool) (inst : MCPInstance) : MCPInstance :=
  if inst.status = Status.running then
    if ok then inst else { inst with status := Status.error }
  else inst

/-- performHealthChecks (oauthService.ts lines 875-897): sweep the default
instance and every map entry with checkInstance; the probe environment
gives each instance's outcome. -/
def performHealthChecks (probe : String → Bool) (m : InstanceManager) :
    InstanceManager :=
  { m with
      defaultInstance := m.defaultInstance.map (fun d => checkInstance (probe d.id) d)
      instances := m.instances.map (fun p => (p.1, checkInstance (probe p.1) p.2)) }

/-- One observation of the readiness loop: the killed flag at the top of
the iteration, the health probe outcome (some true for 2xx, some false for
other statuses, none when fetch threw) and the time the try-block took. -/
structure Attempt where
  killed : Bool
  healthOk : Option Bool
  dur : Nat
deriving DecidableEq

/-- The while-loop of waitForInstanceReady (oauthService.ts lines 807-834):
while the elapsed time is below the timeout, throw if the process is
killed, declare running on a 2xx health response, otherwise sleep 2000 ms
and retry; at exit (lines 837-843) declare running anyway if the process
is alive, else fail. -/
def waitLoop (obs : Nat → Attempt) (timeout : Nat) (inst : MCPInstance)
    (k elapsed : Nat) : Except String MCPInstance :=
  if h : elapsed < timeout then
    if (obs k).killed then .error "Instance process was killed"
    else if (obs k).healthOk = some true then .ok { inst with status := Status.running }
    else waitLoop obs timeout inst (k + 1) (elapsed + (obs k).dur + 2000)
  else
    if (obs k).killed = false then .ok { inst with status := Status.running }
    else .error ("Instance " ++ inst.id ++ " failed to start within " ++
      toString timeout ++ "ms")
termination_by timeout - elapsed
decreasing_by omega

/-- waitForInstanceReady (oauthService.ts lines 804-844) with the default
30000 ms timeout and 2000 ms polling interval. -/
def waitForInstanceReady (obs : Nat → Attempt) (inst : MCPInstance) :
    Except String MCPInstance :=
  waitLoop obs 30000 inst 0 0

/-- Time consumed by j readiness iterations starting at observation k:
each iteration costs its try-block duration plus the 2000 ms sleep. -/
def sumDur (obs : Nat → Attempt) : Nat → Nat → Nat
  | _, 0 => 0
  | k, j + 1 => (obs k).dur + 2000 + sumDur obs (k + 1) j

/-- The exit listener installed by setupProcessHandlers (oauthService.ts
lines 783-792): mark the exited instance stopped, delete it from the
instances map, and delete the user index entry unless it is the default
worker. The default slot keeps referencing the (now stopped) instance. -/
def onExit (m : InstanceManager) (inst : MCPInstance) : InstanceManager :=
  let m1 :=
    { m with
        instances := eraseA m.instances inst.id
        defaultInstance := m.defaultInstance.map
          (fun d => if d.id = inst.id then { d with status := Status.stopped } else d) }
  if inst.userId = "default" then m1
  else { m1 with userInstances := eraseA m1.userInstances inst.userId }

/-- getInstanceByUserId (oauthService.ts lines 736-747): resolve the user
index, return the instance only when running, touching lastActivity. -/
def getInstanceByUserId (m : InstanceManager) (userId : String) (now : Int) :
    Option MCPInstance × InstanceManager :=
  match lookupA m.userInstances userId with
  | none => (none, m)
  | some instanceId =>
    match lookupA m.instances instanceId with
    | none => (none, m)
    | some inst =>
      if inst.status = Status.running then
        let touched := { inst with lastActivity := now }
        (some touched, { m with instances := setA m.instances instanceId touched })
      else (none, m)

/-- allocatePort (oauthService.ts lines 846-858): smallest port in the
1000-wide window above basePort not held by any instance (default
included). -/
def allocatePort (m : InstanceManager) (basePort : Int) : Except String Int :=
  let used := m.instances.map (fun p => p.2.port) ++
    (match m.defaultInstance with
     | some d => [d.port]
     | none => [])
  match (List.range 1000).find? (fun k => !(used.contains (basePort + Int.ofNat k))) with
  | some k => .ok (basePort + Int.ofNat k)
  | none => .error "No available ports"

/-- Environment of one creation attempt: the fresh uuid, the spawned child
handle, and the readiness observations. -/
structure CreateEnv where
  newId : String
  proc : ChildProc
  obs : Nat → Attempt

/-- The creation path of createUserInstance after the existing-instance
check (oauthService.ts lines 687-733): enforce max_instances, allocate a
port, insert the starting instance into both maps, then run the readiness
wait; a readiness failure propagates and leaves the bookkeeping in place
(the exit handler cleans it up later). -/
def createUserInstanceFresh (cEnv : CreateEnv) (maxInstances : Nat)
    (basePort : Int) (dataDir : String) (now : Int) (m : InstanceManager)
    (userId : String) : Except String MCPInstance × InstanceManager :=
  if m.instances.length ≥ maxInstances then
    (.error "Maximum number of instances reached", m)
  else
    match allocatePort m basePort with
    | .error e => (.error e, m)
    | .ok port =>
      let inst : MCPInstance :=
        { id := cEnv.newId
          userId := userId
          port := port
          process := cEnv.proc
          status := Status.starting
          lastActivity := now
          createdAt := now
          tokenDir := dataDir ++ "/user-" ++ userId }
      let m1 :=
        { m with
            instances := setA m.instances cEnv.newId inst
            userInstances := setA m.userInstances userId cEnv.newId }
      match waitForInstanceReady cEnv.obs inst with
      | .ok ready => (.ok ready, { m1 with instances := setA m1.instances cEnv.newId ready })
      | .error e => (.error e, m1)

/-- createUserInstance (oauthService.ts lines 676-734): an existing running
instance is touched and returned; otherwise a fresh one is created. -/
def createUserInstance (cEnv : CreateEnv) (maxInstances : Nat) (basePort : Int)
    (dataDir : String) (now : Int) (m : InstanceManager) (userId : String) :
    Except String MCPInstance × InstanceManager :=
  match lookupA m.userInstances userId with
  | some existingId =>
    match lookupA m.instances existingId with
    | some inst =>
      if inst.status = Status.running then
        let touched := { inst with lastActivity := now }
        (.ok touched, { m with instances := setA m.instances existingId touched })
      else createUserInstanceFresh cEnv maxInstances basePort dataDir now m userId
    | none => createUserInstanceFresh cEnv maxInstances basePort dataDir now m userId
  | none => createUserInstanceFresh cEnv maxInstances basePort dataDir now m userId

/-! ### RequestRouter (src/services, router module)

The session-mapping LRU cache becomes an association list keyed by session
id; the upstream HTTP POST to the worker's /messages endpoint is an
environment returning the parsed response, a non-2xx status, or a thrown
network error. -/

/-- Session-to-user mapping entry (types/index.ts SessionMapping). -/
structure SessionMapping where
  sessionId : String
  userId : String
  createdAt : Int
  lastActivity : Int
deriving DecidableEq

/-- Router state: the sessionMappings cache. -/
structure RouterState where
  sessionMappings : List (String × SessionMapping)
deriving DecidableEq

/-- getUserIdBySession (router lines 193-201): a hit refreshes
lastActivity and the LRU position and yields the user id. -/
def getUserIdBySession (rt : RouterState) (sessionId : String) (now : Int) :
    Option String × RouterState :=
  match lookupA rt.sessionMappings sessionId with
  | some mapping =>
    let updated := { mapping with lastActivity := now }
    (some mapping.userId,
     { rt with sessionMappings := setA rt.sessionMappings sessionId updated })
  | none => (none, rt)

/-- JSON-RPC id: string or number. -/
inductive RpcId
  | str (s : String)
  | num (n : Int)
deriving DecidableEq

/-- JSON-RPC error object; data carries (instanceId, userId, port) when the
router attaches instance context (router lines 171-175). -/
structure RpcError where
  code : Int
  message : String
  data : Option (String × String × Int)
deriving DecidableEq

/-- JSON-RPC request (types/index.ts MCPRequest, params elided). -/
structure MCPRequest where
  jsonrpc : String
  id : Option RpcId
  method : String
deriving DecidableEq

/-- JSON-RPC response (types/index.ts MCPResponse); the result payload is
opaque. An absent jsonrpc field parses as the empty string (falsy). -/
structure MCPResponse where
  jsonrpc : String
  id : Option RpcId
  result : Option String
  error : Option RpcError
deriving DecidableEq

/-- Outcome of the POST to the worker's /messages endpoint. -/
inductive PostResult
  | ok (resp : MCPResponse)
  | httpErr (status : Int) (statusText : String)
  | netErr (message : String)

/-- The forwarding environment. -/
structure ForwardEnv where
  post : Int → MCPRequest → PostResult

/-- The catch-block test at router line 159: mark the instance in error
only when the thrown message mentions ECONNREFUSED or timeout. -/
def messageMarksError (msg : String) : Bool :=
  decide (List.IsInfix "ECONNREFUSED".toList msg.toList) ||
  decide (List.IsInfix "timeout".toList msg.toList)

/-- The error response built in the catch block (router lines 165-177). -/
def catchResponse (req : MCPRequest) (inst : MCPInstance) (msg : String) :
    MCPResponse :=
  { jsonrpc := "2.0"
    id := req.id
    result := none
    error := some
      { code := -32603
        message := msg
        data := some (inst.id, inst.userId, inst.port) } }

/-- forwardRequest (router lines 117-179): touch lastActivity first, then
verify the instance is running, POST the request, reject a response with a
falsy jsonrpc field, and on a thrown transport error mark the instance in
error when the message says connection refused or timeout; every failure
surfaces as a -32603 error response. -/
def forwardRequest (fEnv : ForwardEnv) (now : Int) (inst : MCPInstance)
    (req : MCPRequest) : MCPResponse × MCPInstance :=
  let inst1 := { inst with lastActivity := now }
  if inst1.status ≠ Status.running then
    (catchResponse req inst1
      ("Instance " ++ inst1.id ++ " is not running (status: " ++
        statusStr inst1.status ++ ")"), inst1)
  else
    match fEnv.post inst1.port req with
    | .netErr msg =>
      if messageMarksError msg then
        (catchResponse req inst1 msg, { inst1 with status := Status.error })
      else (catchResponse req inst1 msg, inst1)
    | .httpErr status statusText =>
      let msg := "HTTP " ++ toString status ++ ": " ++ statusText
      if messageMarksError msg then
        (catchResponse req inst1 msg, { inst1 with status := Status.error })
      else (catchResponse req inst1 msg, inst1)
    | .ok resp =>
      if resp.jsonrpc = "" then
        (catchResponse req inst1 "Invalid JSON-RPC response format", inst1)
      else (resp, inst1)

/-- The no-instance error response (router lines 42-51). -/
def noInstanceResponse (req : MCPRequest) : MCPResponse :=
  { jsonrpc := "2.0"
    id := req.id
    result := none
    error := some
      { code := -32603
        message := "No available MCP instance"
        data := none } }

/-- Target resolution of routeRequest (router lines 19-40): a bound session
routes to the user's running instance, else lazily creates one, falling
back to the default instance on creation failure; an unbound session uses
the default instance. -/
def routeTarget (cEnv : CreateEnv) (maxInstances : Nat) (basePort : Int)
    (dataDir : String) (now : Int) (rt : RouterState) (m : InstanceManager)
    (sessionId : String) :
    Option MCPInstance × RouterState × InstanceManager :=
  match getUserIdBySession rt sessionId now with
  | (some userId, rt1) =>
    match getInstanceByUserId m userId now with
    | (some inst, m1) => (some inst, rt1, m1)
    | (none, m1) =>
      match createUserInstance cEnv maxInstances basePort dataDir now m1 userId with
      | (.ok inst, m2) => (some inst, rt1, m2)
      | (.error _, m2) => (m2.defaultInstance, rt1, m2)
  | (none, rt1) => (m.defaultInstance, rt1, m)

/-- Write the forwarded instance object back into the shared manager state
(the router mutates the same object the manager maps point to). -/
def writeBack (m : InstanceManager) (inst : MCPInstance) : InstanceManager :=
  { m with
      instances :=
        if (lookupA m.instances inst.id).isSome then setA m.instances inst.id inst
        else m.instances
      defaultInstance := m.defaultInstance.map
        (fun d => if d.id = inst.id then inst else d) }

/-- routeRequest (router lines 18-55): resolve the target and forward, or
answer -32603 "No available MCP instance" when no target exists. -/
def routeRequest (cEnv : CreateEnv) (fEnv : ForwardEnv) (maxInstances : Nat)
    (basePort : Int) (dataDir : String) (now : Int) (rt : RouterState)
    (m : InstanceManager) (sessionId : String) (req : MCPRequest) :
    MCPResponse × RouterState × InstanceManager :=
  match routeTarget cEnv maxInstances basePort dataDir now rt m sessionId with
  | (none, rt1, m1) => (noInstanceResponse req, rt1, m1)
  | (some inst, rt1, m1) =>
    let fwd := forwardRequest fEnv now inst req
    (fwd.1, rt1, writeBack m1 fwd.2)

/-! ### Shared lemmas about handleCallback -/

/-- When no stored entry matches the parsed token, the callback fails with
the invalid-state error and the state is untouched. -/
theorem handleCallback_missing (env : OAuthEnv) (dataDir : String) (now : Int)
    (st : OAuthServiceState) (code sp : String)
    (h : lookupA st.stateStore (parseState sp).1 = none) :
    handleCallback env dataDir now st code sp =
      (.error "Invalid or expired state parameter", st) := by
  unfold handleCallback
  rw [h]

/-- When the stored session id differs from the parsed one, the callback
fails with the invalid-state error and the state is untouched. -/
theorem handleCallback_mismatch (env : OAuthEnv) (dataDir : String) (now : Int)
    (st : OAuthServiceState) (code sp : String) (sd : StateData)
    (h : lookupA st.stateStore (parseState sp).1 = some sd)
    (hne : (parseState sp).2 ≠ some sd.sessionId) :
    handleCallback env dataDir now st code sp =
      (.error "Invalid or expired state parameter", st) := by
  unfold handleCallback
  rw [h]
  dsimp only
  rw [if_neg hne]

/-- When validation passes, the state entry is erased whatever the IdP
interaction does afterwards. -/
theorem handleCallback_consumes (env : OAuthEnv) (dataDir : String) (now : Int)
    (st : OAuthServiceState) (code sp : String) (sd : StateData)
    (h : lookupA st.stateStore (parseState sp).1 = some sd)
    (heq : (parseState sp).2 = some sd.sessionId) :
    (handleCallback env dataDir now st code sp).2.stateStore =
      eraseA st.stateStore (parseState sp).1 := by
  unfold handleCallback
  rw [h]
  dsimp only
  rw [if_pos heq]
  cases env.exchange code with
  | error e => rfl
  | ok tr =>
    dsimp only
    cases env.userInfo tr.access_token with
    | error e => rfl
    | ok info => rfl

/-! ### C1 -/

/-- C1: a state token inserted by generateAuthUrl is removed by any
handleCallback that passes validation (reaches the consumption step), so a
second handleCallback with the same state parameter always fails with the
invalid-state error and changes nothing, regardless of whether the first
call's token exchange succeeded. -/
theorem c1_state_token_one_shot
    (st : OAuthServiceState) (sessionId stateToken : String) (now : Int)
    (env1 env2 : OAuthEnv) (dataDir1 dataDir2 : String) (now1 now2 : Int)
    (code1 code2 stateParam : String)
    (hparse : parseState stateParam = (stateToken, some sessionId)) :
    lookupA (handleCallback env1 dataDir1 now1
        (generateAuthUrl st sessionId stateToken now).2 code1
        stateParam).2.stateStore stateToken = none ∧
      handleCallback env2 dataDir2 now2
          (handleCallback env1 dataDir1 now1
            (generateAuthUrl st sessionId stateToken now).2 code1 stateParam).2
          code2 stateParam =
        (.error "Invalid or expired state parameter",
         (handleCallback env1 dataDir1 now1
            (generateAuthUrl st sessionId stateToken now).2 code1
            stateParam).2) := by
  have hstore :
      (generateAuthUrl st sessionId stateToken now).2.stateStore =
        setA st.stateStore stateToken ⟨sessionId, now⟩ := rfl
  have hlook :
      lookupA (generateAuthUrl st sessionId stateToken now).2.stateStore
          (parseState stateParam).1 = some ⟨sessionId, now⟩ := by
    rw [hstore, hparse]
    exact lookupA_setA_self _ _ _
  have hsid : (parseState stateParam).2 = some (⟨sessionId, now⟩ : StateData).sessionId := by
    rw [hparse]
  have hcons := handleCallback_consumes env1 dataDir1 now1
    (generateAuthUrl st sessionId stateToken now).2 code1 stateParam
    ⟨sessionId, now⟩ hlook hsid
  have hnone :
      lookupA (handleCallback env1 dataDir1 now1
          (generateAuthUrl st sessionId stateToken now).2 code1
          stateParam).2.stateStore stateToken = none := by
    rw [hcons, hparse]
    exact lookupA_eraseA _ _
  refine ⟨hnone, ?_⟩
  apply handleCallback_missing
  rw [hparse]
  exact hnone

/-- A concrete run of C1: token t for session s, state parameter t_s,
succeeding IdP environment. -/
def oauthEnvOk : OAuthEnv :=
  { exchange := fun _ => .ok ⟨"at", "rt", 7200, "Bearer", ""⟩
    userInfo := fun _ => .ok ⟨"U", "u", "n"⟩
    refresh := fun _ => .ok ⟨"at2", some "rt2", 7200, ""⟩ }

/-- Witness for C1 at a concrete input. -/
theorem c1_state_token_one_shot_witness :
    lookupA (handleCallback oauthEnvOk "data" 5
        (generateAuthUrl ⟨[], [], []⟩ "s" "t" 0).2 "c"
        "t_s").2.stateStore "t" = none ∧
      handleCallback oauthEnvOk "data" 6
          (handleCallback oauthEnvOk "data" 5
            (generateAuthUrl ⟨[], [], []⟩ "s" "t" 0).2 "c" "t_s").2
          "c" "t_s" =
        (.error "Invalid or expired state parameter",
         (handleCallback oauthEnvOk "data" 5
            (generateAuthUrl ⟨[], [], []⟩ "s" "t" 0).2 "c"
            "t_s").2) :=
  c1_state_token_one_shot ⟨[], [], []⟩ "s" "t" 0 oauthEnvOk oauthEnvOk
    "data" "data" 5 6 "c" "c" "t_s" (by decide)

/-! ### C9 -/

/-- C9 counterexample: the code does NOT split the state parameter at the
last underscore. With the store holding token t for session a, the state
parameter t_a_b is accepted by handleCallback (the code takes the first
two underscore-separated fields, t and a), while the last-underscore
reading of the claim parses it as token t_a with session b, matches no
stored entry, and therefore demands rejection. -/
theorem c9_counterexample :
    parseStateSpecLast "t_a_b" = ("t_a", "b") ∧
      lookupA (OAuthServiceState.stateStore ⟨[("t", ⟨"a", 0⟩)], [], []⟩) "t_a" = none ∧
      (handleCallback oauthEnvOk "data" 0 ⟨[("t", ⟨"a", 0⟩)], [], []⟩ "c" "t_a_b").1 =
        .ok ("a", "U") :=
  ⟨by decide, by decide, rfl⟩

/-- C9 as amended: handleCallback splits the state parameter at the FIRST
underscore — the state token is the prefix before the first underscore
(second conjunct) — and rejects the callback, leaving the state untouched,
when no stored entry matches that token or when the stored session id
differs from the second underscore-separated field (first conjunct). -/
theorem c9_first_underscore_split :
    (∀ (env : OAuthEnv) (dataDir : String) (now : Int) (st : OAuthServiceState)
        (code sp : String),
      (lookupA st.stateStore (parseState sp).1 = none ∨
        ∃ sd, lookupA st.stateStore (parseState sp).1 = some sd ∧
          (parseState sp).2 ≠ some sd.sessionId) →
      handleCallback env dataDir now st code sp =
        (.error "Invalid or expired state parameter", st)) ∧
      ∀ s : String,
        (parseState s).1 = (s.toList.takeWhile (fun c => c ≠ '_')).asString := by
  constructor
  · intro env dataDir now st code sp h
    rcases h with h | ⟨sd, hsd, hne⟩
    · exact handleCallback_missing env dataDir now st code sp h
    · exact handleCallback_mismatch env dataDir now st code sp sd hsd hne
  · intro s
    obtain ⟨ps, hps⟩ := splitUnderscore_head s.toList
    unfold parseState
    rw [hps]
    cases ps <;> rfl

/-- Witness for C9's amended theorem at concrete inputs: an unknown token
is rejected, and the token of t_a_b is the prefix t before the first
underscore. -/
theorem c9_first_underscore_split_witness :
    handleCallback oauthEnvOk "data" 0 ⟨[], [], []⟩ "c" "x_y" =
        (.error "Invalid or expired state parameter", ⟨[], [], []⟩) ∧
      (parseState "t_a_b").1 = ("t_a_b".toList.takeWhile (fun c => c ≠ '_')).asString :=
  ⟨c9_first_underscore_split.1 oauthEnvOk "data" 0 ⟨[], [], []⟩ "c" "x_y"
      (Or.inl (by decide)),
    c9_first_underscore_split.2 "t_a_b"⟩

/-! ### C6 -/

/-- Detects a rename onto the given target path. -/
def isRenameTo (target : String) : FsOp → Bool
  | FsOp.rename _ dst => dst = target
  | _ => false

/-- A concrete token response used by several concrete runs. -/
def tok0 : OAuthTokenResponse := ⟨"at", "rt", 7200, "Bearer", ""⟩

/-- C6 counterexample: saveUserTokens writes tokens.json with a direct
in-place write and performs no rename at all, so the write-then-rename
atomicity stated by the claim is absent: at a concrete input the trace
contains a writeFile on the final tokens.json path and nothing renames
onto that path. -/
theorem c6_counterexample :
    FsOp.writeFile "data/user-u1/tokens.json" ⟨"u1", "at", "rt", 7200000⟩ ∈
        (saveUserTokens "data" ⟨[], [], []⟩ "u1" tok0 0).2 ∧
      ((saveUserTokens "data" ⟨[], [], []⟩ "u1" tok0 0).2.all
        (fun op => !(isRenameTo "data/user-u1/tokens.json" op))) = true := by
  constructor
  · show FsOp.writeFile _ _ ∈ [FsOp.mkdirRecursive "data/user-u1",
      FsOp.writeFile "data/user-u1/tokens.json" ⟨"u1", "at", "rt", 7200000⟩]
    simp
  · rfl

/-- C6 as amended: saveUserTokens creates the per-user directory
idempotently (recursive mkdir) and then writes tokens.json with a single
direct write of the normalized record; no temporary file and no rename are
involved, so rename-based atomicity is not provided. -/
theorem c6_save_trace (dataDir : String) (st : OAuthServiceState)
    (u : String) (tok : OAuthTokenResponse) (now : Int) :
    (saveUserTokens dataDir st u tok now).2 =
      [FsOp.mkdirRecursive (dataDir ++ "/user-" ++ u),
       FsOp.writeFile (dataDir ++ "/user-" ++ u ++ "/tokens.json")
         ⟨u, tok.access_token, tok.refresh_token, now + tok.expires_in * 1000⟩] :=
  rfl

/-! ### C7 -/

/-- C7: save followed by load returns the saved credentials with the
relative expires_in normalized to the absolute instant now plus
expires_in seconds, both on the cache-hit path (first conjunct, state
unchanged) and on the disk path after the cache entry is gone (second
conjunct); the returned record always carries the absolute expiry. -/
theorem c7_save_load_round_trip (dataDir : String) (st : OAuthServiceState)
    (u : String) (tok : OAuthTokenResponse) (now : Int) :
    loadUserTokens (saveUserTokens dataDir st u tok now).1 u =
        (some ⟨u, tok.access_token, tok.refresh_token, now + tok.expires_in * 1000⟩,
         (saveUserTokens dataDir st u tok now).1) ∧
      (loadUserTokens
          { (saveUserTokens dataDir st u tok now).1 with tokenCache := [] } u).1 =
        some ⟨u, tok.access_token, tok.refresh_token, now + tok.expires_in * 1000⟩ := by
  have hcache : (saveUserTokens dataDir st u tok now).1.tokenCache =
      setA st.tokenCache u
        ⟨u, tok.access_token, tok.refresh_token, now + tok.expires_in * 1000⟩ := rfl
  have hdisk : (saveUserTokens dataDir st u tok now).1.disk =
      setA st.disk u
        ⟨u, tok.access_token, tok.refresh_token, now + tok.expires_in * 1000⟩ := rfl
  constructor
  · unfold loadUserTokens
    rw [hcache, lookupA_setA_self]
  · simp only [loadUserTokens, lookupA]
    rw [hdisk, lookupA_setA_self]

/-! ### C4 -/

/-- A refresh environment granting only sixty seconds of lifetime. -/
def oauthEnvShortRefresh : OAuthEnv :=
  { exchange := fun _ => .ok tok0
    userInfo := fun _ => .ok ⟨"U", "u", "n"⟩
    refresh := fun _ => .ok ⟨"at2", some "rt2", 60, ""⟩ }

/-- A refresh environment that always fails. -/
def oauthEnvFailRefresh : OAuthEnv :=
  { exchange := fun _ => .ok tok0
    userInfo := fun _ => .ok ⟨"U", "u", "n"⟩
    refresh := fun _ => .error "boom" }

/-- C4 counterexample: with stored credentials expiring in 100 seconds and
an IdP whose refresh grants sixty seconds, ensureValidToken at time 0
refreshes and returns credentials whose expiry lies only sixty seconds in
the future - neither absent nor strictly more than five minutes away, so
the claimed postcondition fails. -/
theorem c4_counterexample :
    (ensureValidToken oauthEnvShortRefresh "data" 0
        ⟨[], [("u", ⟨"u", "at", "rt", 100000⟩)], []⟩ "u").1 =
      some ⟨"u", "at2", "rt2", 60000⟩ ∧
      ¬ ((60000 : Int) - 0 > 5 * 60 * 1000) :=
  ⟨rfl, by decide⟩

/-- Every outcome of refreshUserToken is absent or a record whose expiry is
the absolute instant now plus the expires_in granted by the refresh. -/
theorem refreshUserToken_cases (env : OAuthEnv) (dataDir : String) (now : Int)
    (st : OAuthServiceState) (u : String) :
    (refreshUserToken env dataDir now st u).1 = none ∨
      ∃ t rt d, (refreshUserToken env dataDir now st u).1 = some t ∧
        env.refresh rt = .ok d ∧ t.expires_at = now + d.expires_in * 1000 := by
  unfold refreshUserToken
  rcases hl : loadUserTokens st u with ⟨t?, st1⟩
  cases t? with
  | none => exact Or.inl rfl
  | some tokens =>
    dsimp only
    cases hr : env.refresh tokens.refresh_token with
    | error e => exact Or.inl rfl
    | ok d =>
      refine Or.inr ⟨_, tokens.refresh_token, d, rfl, hr, rfl⟩

/-- A load that returned credentials is stable: loading again from the
post-load state yields the same credentials and the same state. -/
theorem loadUserTokens_stable (st : OAuthServiceState) (u : String)
    (t : UserTokens) (h : (loadUserTokens st u).1 = some t) :
    loadUserTokens (loadUserTokens st u).2 u = (some t, (loadUserTokens st u).2) := by
  cases hc : lookupA st.tokenCache u with
  | some c =>
    have h2 : loadUserTokens st u = (some c, st) := by
      unfold loadUserTokens
      rw [hc]
    rw [h2] at h
    dsimp only at h
    injection h with h
    subst h
    rw [h2]
    dsimp only
    exact h2
  | none =>
    cases hd : lookupA st.disk u with
    | none =>
      have h2 : loadUserTokens st u = (none, st) := by
        unfold loadUserTokens
        rw [hc]
        dsimp only
        rw [hd]
      rw [h2] at h
      exact absurd h (by simp)
    | some tk =>
      have h2 : loadUserTokens st u =
          (some tk, { st with tokenCache := setA st.tokenCache u tk }) := by
        unfold loadUserTokens
        rw [hc]
        dsimp only
        rw [hd]
      rw [h2] at h
      dsimp only at h
      injection h with h
      subst h
      rw [h2]
      dsimp only
      unfold loadUserTokens
      rw [lookupA_setA_self]

/-- C4 as amended: ensureValidToken returns absent, or credentials more
than five minutes from expiry, or freshly refreshed credentials whose
expiry is the instant now plus the expires_in granted by the IdP (which
can lie within five minutes); and when the stored credentials are within
five minutes of expiry and the refresh fails, it clears the in-memory
cache entry for the user and returns absent. -/
theorem c4_refresh_window :
    (∀ (env : OAuthEnv) (dataDir : String) (now : Int) (st : OAuthServiceState)
        (u : String),
      (ensureValidToken env dataDir now st u).1 = none ∨
        ∃ t, (ensureValidToken env dataDir now st u).1 = some t ∧
          (t.expires_at - now > 5 * 60 * 1000 ∨
            ∃ rt d, env.refresh rt = .ok d ∧
              t.expires_at = now + d.expires_in * 1000)) ∧
      ∀ (env : OAuthEnv) (dataDir : String) (now : Int) (st : OAuthServiceState)
        (u : String) (t : UserTokens) (e : String),
        (loadUserTokens st u).1 = some t →
        now ≥ t.expires_at - 5 * 60 * 1000 →
        env.refresh t.refresh_token = .error e →
        (ensureValidToken env dataDir now st u).1 = none ∧
          lookupA (ensureValidToken env dataDir now st u).2.tokenCache u = none := by
  constructor
  · intro env dataDir now st u
    unfold ensureValidToken
    rcases hl : loadUserTokens st u with ⟨t?, st1⟩
    cases t? with
    | none => exact Or.inl rfl
    | some tokens =>
      dsimp only
      by_cases hexp : now ≥ tokens.expires_at - 5 * 60 * 1000
      · rw [if_pos hexp]
        rcases refreshUserToken_cases env dataDir now st1 u with h | ⟨t, rt, d, ht, hr, he⟩
        · exact Or.inl h
        · exact Or.inr ⟨t, ht, Or.inr ⟨rt, d, hr, he⟩⟩
      · rw [if_neg hexp]
        refine Or.inr ⟨tokens, rfl, Or.inl ?_⟩
        omega
  · intro env dataDir now st u t e hl hexp hr
    have hpair : loadUserTokens st u = (some t, (loadUserTokens st u).2) := by
      rcases hx : loadUserTokens st u with ⟨t?, st1⟩
      rw [hx] at hl
      simp only at hl
      rw [hl]
    have hstable := loadUserTokens_stable st u t hl
    unfold ensureValidToken
    rw [hpair]
    dsimp only
    rw [if_pos hexp]
    unfold refreshUserToken
    rw [hstable]
    dsimp only
    rw [hr]
    exact ⟨rfl, lookupA_eraseA _ _⟩

/-- Witness for C4's amended theorem: the short-refresh run instantiates
the disjunction, and a failing refresh on expiring credentials clears the
cache and returns absent. -/
theorem c4_refresh_window_witness :
    ((ensureValidToken oauthEnvShortRefresh "data" 0
          ⟨[], [("u", ⟨"u", "at", "rt", 100000⟩)], []⟩ "u").1 = none ∨
        ∃ t, (ensureValidToken oauthEnvShortRefresh "data" 0
            ⟨[], [("u", ⟨"u", "at", "rt", 100000⟩)], []⟩ "u").1 = some t ∧
          (t.expires_at - 0 > 5 * 60 * 1000 ∨
            ∃ rt d, oauthEnvShortRefresh.refresh rt = .ok d ∧
              t.expires_at = 0 + d.expires_in * 1000)) ∧
      ((ensureValidToken oauthEnvFailRefresh "data" 0
          ⟨[], [("u", ⟨"u", "at", "rt", 100000⟩)], []⟩ "u").1 = none ∧
        lookupA (ensureValidToken oauthEnvFailRefresh "data" 0
            ⟨[], [("u", ⟨"u", "at", "rt", 100000⟩)], []⟩ "u").2.tokenCache "u" = none) :=
  ⟨c4_refresh_window.1 oauthEnvShortRefresh "data" 0
      ⟨[], [("u", ⟨"u", "at", "rt", 100000⟩)], []⟩ "u",
    c4_refresh_window.2 oauthEnvFailRefresh "data" 0
      ⟨[], [("u", ⟨"u", "at", "rt", 100000⟩)], []⟩ "u"
      ⟨"u", "at", "rt", 100000⟩ "boom" rfl (by decide) rfl⟩

/-! ### C10 -/

/-- stopInstance never touches the default-instance slot. -/
theorem stopInstance_defaultInstance (m : InstanceManager) (j : String) :
    (stopInstance m j).defaultInstance = m.defaultInstance := by
  unfold stopInstance
  cases lookupA m.instances j with
  | none => rfl
  | some inst =>
    dsimp only
    by_cases h : inst.status = Status.running
    · rw [if_pos h]
    · rw [if_neg h]

/-- stopInstance preserves the entry of every non-running instance,
whatever its target is. -/
theorem stopInstance_preserves_nonrunning (m : InstanceManager) (j iid : String)
    (inst : MCPInstance) (hiid : lookupA m.instances iid = some inst)
    (hst : inst.status ≠ Status.running) :
    lookupA (stopInstance m j).instances iid = some inst := by
  unfold stopInstance
  cases hj : lookupA m.instances j with
  | none => exact hiid
  | some tgt =>
    dsimp only
    by_cases h : tgt.status = Status.running
    · rw [if_pos h]
      dsimp only
      have hne : iid ≠ j := by
        intro e
        subst e
        rw [hiid] at hj
        injection hj with hj
        subst hj
        exact hst h
      rw [lookupA_setA_other _ _ _ _ hne]
      exact hiid
    · rw [if_neg h]
      exact hiid

/-- The idle-reaper fold preserves the entry of a non-running instance. -/
theorem cleanup_foldl_preserves (iid : String) (inst : MCPInstance)
    (hst : inst.status ≠ Status.running) (now idleTimeout : Int) :
    ∀ (ps : List (String × MCPInstance)) (acc : InstanceManager),
      lookupA acc.instances iid = some inst →
      lookupA ((ps.foldl (fun acc p =>
          if p.2.userId = "default" then acc
          else if now - p.2.lastActivity > idleTimeout then stopInstance acc p.1
          else acc) acc)).instances iid = some inst := by
  intro ps
  induction ps with
  | nil => intro acc h; exact h
  | cons p t ih =>
    intro acc h
    rw [List.foldl_cons]
    apply ih
    by_cases h1 : p.2.userId = "default"
    · rw [if_pos h1]
      exact h
    · rw [if_neg h1]
      by_cases h2 : now - p.2.lastActivity > idleTimeout
      · rw [if_pos h2]
        exact stopInstance_preserves_nonrunning acc p.1 iid inst h hst
      · rw [if_neg h2]
        exact h

/-- C10: stopInstance changes nothing unless the instance exists in the
worker table with status exactly running (first two conjuncts), and the
idle reaper, which acts only through stopInstance, leaves the table entry
(and hence the port) of every non-running instance - starting, stopping,
stopped or error - fully unchanged (third conjunct). -/
theorem c10_stop_only_running :
    (∀ (m : InstanceManager) (instanceId : String),
      lookupA m.instances instanceId = none → stopInstance m instanceId = m) ∧
      (∀ (m : InstanceManager) (instanceId : String) (inst : MCPInstance),
        lookupA m.instances instanceId = some inst →
        inst.status ≠ Status.running → stopInstance m instanceId = m) ∧
      ∀ (m : InstanceManager) (now idleTimeout : Int) (iid : String)
        (inst : MCPInstance),
        lookupA m.instances iid = some inst →
        inst.status ≠ Status.running →
        lookupA (cleanupIdleInstances m now idleTimeout).instances iid = some inst := by
  refine ⟨?_, ?_, ?_⟩
  · intro m instanceId h
    unfold stopInstance
    rw [h]
  · intro m instanceId inst h hst
    unfold stopInstance
    rw [h]
    dsimp only
    rw [if_neg hst]
  · intro m now idleTimeout iid inst hiid hst
    unfold cleanupIdleInstances
    exact cleanup_foldl_preserves iid inst hst now idleTimeout m.instances m hiid

/-- An errored non-default instance with its table entry. -/
def instErr : MCPInstance :=
  ⟨"i1", "u1", 3001, ⟨false, []⟩, Status.error, 0, 0, "data/user-u1"⟩

/-- A manager holding only the errored instance. -/
def mgrErr : InstanceManager := ⟨[("i1", instErr)], [("u1", "i1")], none⟩

/-- Witness for C10 at concrete inputs: stop on a missing id and on an
errored instance changes nothing, and the idle reaper keeps the errored
instance's entry even when it is long idle. -/
theorem c10_stop_only_running_witness :
    stopInstance ⟨[], [], none⟩ "zz" = ⟨[], [], none⟩ ∧
      stopInstance mgrErr "i1" = mgrErr ∧
      lookupA (cleanupIdleInstances mgrErr 999999 1).instances "i1" = some instErr :=
  ⟨c10_stop_only_running.1 ⟨[], [], none⟩ "zz" rfl,
   c10_stop_only_running.2.1 mgrErr "i1" instErr rfl (by decide),
   c10_stop_only_running.2.2 mgrErr 999999 1 "i1" instErr rfl (by decide)⟩

/-! ### C3 -/

/-- The default instance as built by startDefaultInstance, running and
never signaled. -/
def defInst : MCPInstance :=
  ⟨"default", "default", 3000, ⟨false, []⟩, Status.running, 0, 0, "data/default"⟩

/-- A manager right after initialize(): only the default instance, which
startDefaultInstance stores in the default slot and never inserts into the
instances map. -/
def mgrDefaultOnly : InstanceManager := ⟨[], [], some defInst⟩

/-- C3 evaluated at the failing input: shutdown never mutates the
default-instance slot at all (first conjunct; stopInstance looks the id up
only in the instances map, where the default instance never lives), and on
the concrete post-initialize state shutdown is a no-op: the default
worker's child process receives no signal, contradicting the claim that
every tracked worker - the default included - has been terminated. -/
theorem c3_shutdown_never_signals_default :
    (∀ m : InstanceManager, (shutdown m).defaultInstance = m.defaultInstance) ∧
      shutdown mgrDefaultOnly = mgrDefaultOnly ∧
      defInst.process.signals = [] ∧ defInst.status = Status.running := by
  have hfold : ∀ (ks : List String) (acc : InstanceManager),
      (ks.foldl stopInstance acc).defaultInstance = acc.defaultInstance := by
    intro ks
    induction ks with
    | nil => intro acc; rfl
    | cons k t ih =>
      intro acc
      rw [List.foldl_cons, ih, stopInstance_defaultInstance]
  refine ⟨?_, rfl, rfl, rfl⟩
  intro m
  unfold shutdown
  dsimp only
  cases hd : ((m.instances.map Prod.fst).foldl stopInstance m).defaultInstance with
  | none =>
    rw [hd]
    exact hd.symm.trans (hfold (m.instances.map Prod.fst) m)
  | some d =>
    exact (stopInstance_defaultInstance _ d.id).trans
      (hfold (m.instances.map Prod.fst) m)

/-! ### C8 -/

/-- checkInstance never changes lastActivity. -/
theorem checkInstance_lastActivity (ok : Bool) (i : MCPInstance) :
    (checkInstance ok i).lastActivity = i.lastActivity := by
  unfold checkInstance
  by_cases h : i.status = Status.running
  · rw [if_pos h]
    cases ok <;> rfl
  · rw [if_neg h]

/-- A running instance with lastActivity 0. -/
def instRun : MCPInstance := ⟨"i1", "u1", 3001, ⟨false, []⟩, Status.running, 0, 0, "d"⟩

/-- A manager holding only the running instance. -/
def mgrRun : InstanceManager := ⟨[("i1", instRun)], [("u1", "i1")], none⟩

/-- C8 counterexample: a liveness sweep in which every probe succeeds
leaves the manager - in particular every lastActivity - completely
unchanged, so a successful liveness probe does NOT update the probed
worker's lastActivity as the claim states. -/
theorem c8_counterexample :
    performHealthChecks (fun _ => true) mgrRun = mgrRun ∧
      (lookupA (performHealthChecks (fun _ => true) mgrRun).instances "i1").map
          (fun i => i.lastActivity) = some 0 :=
  ⟨rfl, rfl⟩

/-- C8 as amended: forwardRequest stamps lastActivity with the current
time on every call, in every outcome (first conjunct), while the liveness
sweep never changes any instance's lastActivity - a successful probe
leaves the instance untouched and a failure only sets its status to error
(second and third conjuncts). -/
theorem c8_last_activity :
    (∀ (fEnv : ForwardEnv) (now : Int) (inst : MCPInstance) (req : MCPRequest),
      (forwardRequest fEnv now inst req).2.lastActivity = now) ∧
      (∀ (probe : String → Bool) (m : InstanceManager),
        (performHealthChecks probe m).instances.map (fun p => (p.1, p.2.lastActivity)) =
          m.instances.map (fun p => (p.1, p.2.lastActivity))) ∧
      ∀ (probe : String → Bool) (m : InstanceManager),
        (performHealthChecks probe m).defaultInstance.map (fun d => d.lastActivity) =
          m.defaultInstance.map (fun d => d.lastActivity) := by
  refine ⟨?_, ?_, ?_⟩
  · intro fEnv now inst req
    unfold forwardRequest
    dsimp only
    split
    · rfl
    · split
      · split <;> rfl
      · split <;> rfl
      · split <;> rfl
  · intro probe m
    unfold performHealthChecks
    dsimp only
    rw [List.map_map]
    apply List.map_congr_left
    intro p _
    simp [Function.comp, checkInstance_lastActivity]
  · intro probe m
    unfold performHealthChecks
    dsimp only
    cases m.defaultInstance with
    | none => rfl
    | some d =>
      dsimp only [Option.map]
      rw [checkInstance_lastActivity]

/-! ### C5 -/

/-- When the process stays alive and no probe returns 2xx, the readiness
loop exhausts the timeout and then declares the worker running. -/
theorem waitLoop_alive_times_out (obs : Nat → Attempt) (inst : MCPInstance)
    (hk : ∀ j, (obs j).killed = false)
    (hh : ∀ j, (obs j).healthOk ≠ some true) :
    ∀ (gas timeout k elapsed : Nat), timeout - elapsed ≤ gas →
      waitLoop obs timeout inst k elapsed =
        .ok { inst with status := Status.running } := by
  intro gas
  induction gas with
  | zero =>
    intro timeout k elapsed hle
    rw [waitLoop]
    rw [dif_neg (by omega)]
    rw [if_pos (hk k)]
  | succ g ih =>
    intro timeout k elapsed hle
    rw [waitLoop]
    by_cases h : elapsed < timeout
    · rw [dif_pos h]
      rw [if_neg (by rw [hk k]; exact Bool.false_ne_true)]
      rw [if_neg (hh k)]
      exact ih timeout (k + 1) (elapsed + (obs k).dur + 2000) (by omega)
    · rw [dif_neg h]
      rw [if_pos (hk k)]

/-- When the process dies at a poll reached within the timeout and every
earlier poll saw it alive with a non-2xx probe, the readiness loop fails
with the killed error. -/
theorem waitLoop_dies (obs : Nat → Attempt) (inst : MCPInstance) :
    ∀ (j timeout k elapsed : Nat),
      (∀ i, i < j → (obs (k + i)).killed = false ∧ (obs (k + i)).healthOk ≠ some true) →
      (obs (k + j)).killed = true →
      elapsed + sumDur obs k j < timeout →
      waitLoop obs timeout inst k elapsed =
        .error "Instance process was killed" := by
  intro j
  induction j with
  | zero =>
    intro timeout k elapsed _ hkill hlt
    rw [waitLoop]
    rw [dif_pos (by simpa [sumDur] using hlt)]
    rw [if_pos (by simpa using hkill)]
  | succ j ih =>
    intro timeout k elapsed hprev hkill hlt
    rw [sumDur] at hlt
    have h0 := hprev 0 (by omega)
    simp only [Nat.add_zero] at h0
    rw [waitLoop]
    rw [dif_pos (by omega)]
    rw [if_neg (by rw [h0.1]; exact Bool.false_ne_true)]
    rw [if_neg h0.2]
    refine ih timeout (k + 1) (elapsed + (obs k).dur + 2000) ?_ ?_ (by omega)
    · intro i hi
      have := hprev (i + 1) (by omega)
      rwa [show k + (i + 1) = k + 1 + i by omega] at this
    · rwa [show k + 1 + j = k + (j + 1) by omega]

/-- C5: after spawn the supervisor polls the health endpoint, each
iteration sleeping the 2000 ms interval, against the 30000 ms budget of
waitForInstanceReady. If the whole timeout elapses with the child alive
(probes non-2xx throughout), the worker is declared running (first
conjunct); if the child dies at a poll reached during the wait, readiness
fails with the killed error (second conjunct); and the exit handler tears
the partial worker down, removing it from the instance table and, for a
non-default worker, from the user index (third conjunct). -/
theorem c5_readiness_best_effort :
    (∀ (obs : Nat → Attempt) (inst : MCPInstance),
      (∀ j, (obs j).killed = false) →
      (∀ j, (obs j).healthOk ≠ some true) →
      waitForInstanceReady obs inst = .ok { inst with status := Status.running }) ∧
      (∀ (obs : Nat → Attempt) (inst : MCPInstance) (j : Nat),
        (∀ i, i < j → (obs i).killed = false ∧ (obs i).healthOk ≠ some true) →
        (obs j).killed = true →
        sumDur obs 0 j < 30000 →
        waitForInstanceReady obs inst = .error "Instance process was killed") ∧
      ∀ (m : InstanceManager) (inst : MCPInstance),
        lookupA (onExit m inst).instances inst.id = none ∧
          (inst.userId ≠ "default" →
            lookupA (onExit m inst).userInstances inst.userId = none) := by
  refine ⟨?_, ?_, ?_⟩
  · intro obs inst hk hh
    exact waitLoop_alive_times_out obs inst hk hh 30000 30000 0 0 (by omega)
  · intro obs inst j hprev hkill hlt
    exact waitLoop_dies obs inst j 30000 0 0 (by simpa using hprev)
      (by simpa using hkill) (by omega)
  · intro m inst
    unfold onExit
    by_cases h : inst.userId = "default"
    · rw [if_pos h]
      exact ⟨lookupA_eraseA _ _, fun hne => absurd h hne⟩
    · rw [if_neg h]
      exact ⟨lookupA_eraseA _ _, fun _ => lookupA_eraseA _ _⟩

/-- Constant observations: always alive, probe non-2xx. -/
def obsAlive : Nat → Attempt := fun _ => ⟨false, some false, 0⟩

/-- Process alive at poll 0 with a failed probe, dead from poll 1 on. -/
def obsDies : Nat → Attempt := fun i =>
  if i = 0 then ⟨false, some false, 0⟩ else ⟨true, none, 0⟩

/-- Witness for C5 at concrete inputs: the alive-but-unhealthy worker is
declared running at timeout, the worker that dies at the second poll
fails readiness, and the exit handler removes the errored instance's
bookkeeping. -/
theorem c5_readiness_best_effort_witness :
    waitForInstanceReady obsAlive instRun =
        .ok { instRun with status := Status.running } ∧
      waitForInstanceReady obsDies instRun =
        .error "Instance process was killed" ∧
      lookupA (onExit mgrErr instErr).instances instErr.id = none ∧
        (instErr.userId ≠ "default" →
          lookupA (onExit mgrErr instErr).userInstances instErr.userId = none) :=
  ⟨c5_readiness_best_effort.1 obsAlive instRun (fun _ => rfl)
     (fun _ => (by decide : (some false : Option Bool) ≠ some true)),
   c5_readiness_best_effort.2.1 obsDies instRun 1
     (fun i hi => by
       have : i = 0 := by omega
       subst this
       exact ⟨rfl, by decide⟩)
     (by decide) (by decide),
   c5_readiness_best_effort.2.2 mgrErr instErr⟩

/-! ### C2 -/

/-- A creation environment whose readiness probes never succeed but whose
child stays alive. -/
def cEnv0 : CreateEnv := ⟨"new", ⟨false, []⟩, obsAlive⟩

/-- A forwarding environment answering every POST with a well-formed
JSON-RPC response. -/
def fEnvOk : ForwardEnv :=
  ⟨fun _ _ => PostResult.ok ⟨"2.0", some (RpcId.num 1), some "r", none⟩⟩

/-- A concrete JSON-RPC request. -/
def req0 : MCPRequest := ⟨"2.0", some (RpcId.num 1), "tools/list"⟩

/-- C2 counterexample: when no worker is available the router answers with
code -32603 but message "No available MCP instance", not the
"No available worker" stated by the claim. -/
theorem c2_counterexample :
    (routeRequest cEnv0 fEnvOk 20 3001 "data" 0 ⟨[]⟩ ⟨[], [], none⟩ "s1" req0).1 =
        noInstanceResponse req0 ∧
      (noInstanceResponse req0).error =
        some ⟨-32603, "No available MCP instance", none⟩ ∧
      "No available MCP instance" ≠ "No available worker" :=
  ⟨rfl, rfl, by decide⟩

/-- A resolution that found no running instance returned the manager
unchanged: every none-branch of getInstanceByUserId hands back the same
state. -/
theorem getInstanceByUserId_none (m : InstanceManager) (u : String) (now : Int)
    (h : (getInstanceByUserId m u now).1 = none) :
    getInstanceByUserId m u now = (none, m) := by
  cases hi : lookupA m.userInstances u with
  | none =>
    unfold getInstanceByUserId
    rw [hi]
  | some iid =>
    cases hj : lookupA m.instances iid with
    | none =>
      unfold getInstanceByUserId
      rw [hi]
      dsimp only
      rw [hj]
    | some inst =>
      by_cases hrun : inst.status = Status.running
      · exfalso
        unfold getInstanceByUserId at h
        rw [hi] at h
        dsimp only at h
        rw [hj] at h
        dsimp only at h
        rw [if_pos hrun] at h
        exact Option.noConfusion h
      · unfold getInstanceByUserId
        rw [hi]
        dsimp only
        rw [hj]
        dsimp only
        rw [if_neg hrun]

/-- The fresh-creation path never touches the default-instance slot, on
any outcome (cap, port exhaustion, readiness success or failure). -/
theorem createUserInstanceFresh_defaultInstance (cEnv : CreateEnv) (maxI : Nat)
    (basePort : Int) (dataDir : String) (now : Int) (m : InstanceManager)
    (u : String) :
    (createUserInstanceFresh cEnv maxI basePort dataDir now m u).2.defaultInstance =
      m.defaultInstance := by
  unfold createUserInstanceFresh
  split
  · rfl
  · split
    · rfl
    · dsimp only
      split <;> rfl

/-- createUserInstance never touches the default-instance slot. -/
theorem createUserInstance_defaultInstance (cEnv : CreateEnv) (maxI : Nat)
    (basePort : Int) (dataDir : String) (now : Int) (m : InstanceManager)
    (u : String) :
    (createUserInstance cEnv maxI basePort dataDir now m u).2.defaultInstance =
      m.defaultInstance := by
  unfold createUserInstance
  split
  · split
    · split
      · rfl
      · exact createUserInstanceFresh_defaultInstance cEnv maxI basePort dataDir now m u
    · exact createUserInstanceFresh_defaultInstance cEnv maxI basePort dataDir now m u
  · exact createUserInstanceFresh_defaultInstance cEnv maxI basePort dataDir now m u

/-- The fresh-creation path propagates a readiness failure: with capacity
available and a port allocated, a waitForInstanceReady error is returned
as the creation error. -/
theorem createUserInstanceFresh_readiness_error (cEnv : CreateEnv) (maxI : Nat)
    (basePort : Int) (dataDir : String) (now : Int) (m : InstanceManager)
    (u : String) (port : Int) (e : String)
    (hcap : ¬ m.instances.length ≥ maxI)
    (hport : allocatePort m basePort = .ok port)
    (hready : waitForInstanceReady cEnv.obs
      { id := cEnv.newId, userId := u, port := port, process := cEnv.proc,
        status := Status.starting, lastActivity := now, createdAt := now,
        tokenDir := dataDir ++ "/user-" ++ u } = .error e) :
    (createUserInstanceFresh cEnv maxI basePort dataDir now m u).1 = .error e := by
  unfold createUserInstanceFresh
  rw [if_neg hcap]
  rw [hport]
  dsimp only
  rw [hready]

/-- A creation environment whose child dies right after the first failed
readiness poll, so spawn-side readiness fails. -/
def cEnvDies : CreateEnv := ⟨"new", ⟨false, []⟩, obsDies⟩

/-- C2 as amended: a session bound to user u routes to u's worker whenever
the instance table holds a running worker for u, touching its
lastActivity (first conjunct); a bound session whose worker creation
fails for ANY reason - instance cap, port exhaustion, or spawn/readiness
error - falls back to the default worker, which creation never altered
(second conjunct, with the cap case also stated directly as the third
conjunct); an unbound session uses the default worker (fourth conjunct);
and when no worker at all is available the router returns the -32603
response whose message is "No available MCP instance" (fifth and sixth
conjuncts). -/
theorem c2_routing :
    (∀ (cEnv : CreateEnv) (fEnv : ForwardEnv) (maxI : Nat) (basePort : Int)
        (dataDir : String) (now : Int) (rt : RouterState) (m : InstanceManager)
        (sid : String) (req : MCPRequest) (sm : SessionMapping) (iid : String)
        (inst : MCPInstance),
      lookupA rt.sessionMappings sid = some sm →
      lookupA m.userInstances sm.userId = some iid →
      lookupA m.instances iid = some inst →
      inst.status = Status.running →
      (routeTarget cEnv maxI basePort dataDir now rt m sid).1 =
          some { inst with lastActivity := now } ∧
        (routeRequest cEnv fEnv maxI basePort dataDir now rt m sid req).1 =
          (forwardRequest fEnv now { inst with lastActivity := now } req).1) ∧
      (∀ (cEnv : CreateEnv) (maxI : Nat) (basePort : Int) (dataDir : String)
          (now : Int) (rt : RouterState) (m : InstanceManager) (sid : String)
          (sm : SessionMapping) (e : String),
        lookupA rt.sessionMappings sid = some sm →
        (getInstanceByUserId m sm.userId now).1 = none →
        (createUserInstance cEnv maxI basePort dataDir now m sm.userId).1 = .error e →
        (routeTarget cEnv maxI basePort dataDir now rt m sid).1 = m.defaultInstance) ∧
      (∀ (cEnv : CreateEnv) (maxI : Nat) (basePort : Int) (dataDir : String)
          (now : Int) (rt : RouterState) (m : InstanceManager) (sid : String)
          (sm : SessionMapping),
        lookupA rt.sessionMappings sid = some sm →
        lookupA m.userInstances sm.userId = none →
        m.instances.length ≥ maxI →
        (routeTarget cEnv maxI basePort dataDir now rt m sid).1 = m.defaultInstance) ∧
      (∀ (cEnv : CreateEnv) (maxI : Nat) (basePort : Int) (dataDir : String)
          (now : Int) (rt : RouterState) (m : InstanceManager) (sid : String),
        lookupA rt.sessionMappings sid = none →
        (routeTarget cEnv maxI basePort dataDir now rt m sid).1 = m.defaultInstance) ∧
      (∀ (cEnv : CreateEnv) (fEnv : ForwardEnv) (maxI : Nat) (basePort : Int)
          (dataDir : String) (now : Int) (rt : RouterState) (m : InstanceManager)
          (sid : String) (req : MCPRequest),
        (routeTarget cEnv maxI basePort dataDir now rt m sid).1 = none →
        (routeRequest cEnv fEnv maxI basePort dataDir now rt m sid req).1 =
          noInstanceResponse req) ∧
      ∀ req : MCPRequest,
        noInstanceResponse req =
          { jsonrpc := "2.0", id := req.id, result := none,
            error := some
              { code := -32603, message := "No available MCP instance",
                data := none } } := by
  refine ⟨?_, ?_, ?_, ?_, ?_, fun req => rfl⟩
  · intro cEnv fEnv maxI basePort dataDir now rt m sid req sm iid inst hsm huid hinst hrun
    have hget : getUserIdBySession rt sid now =
        (some sm.userId,
         RouterState.mk (setA rt.sessionMappings sid { sm with lastActivity := now })) := by
      unfold getUserIdBySession
      rw [hsm]
    have hgi : getInstanceByUserId m sm.userId now =
        (some { inst with lastActivity := now },
         InstanceManager.mk (setA m.instances iid { inst with lastActivity := now })
           m.userInstances m.defaultInstance) := by
      unfold getInstanceByUserId
      rw [huid]
      dsimp only
      rw [hinst]
      dsimp only
      rw [if_pos hrun]
    have htgt : routeTarget cEnv maxI basePort dataDir now rt m sid =
        (some { inst with lastActivity := now },
         RouterState.mk (setA rt.sessionMappings sid { sm with lastActivity := now }),
         InstanceManager.mk (setA m.instances iid { inst with lastActivity := now })
           m.userInstances m.defaultInstance) := by
      unfold routeTarget
      rw [hget]
      dsimp only
      rw [hgi]
    constructor
    · rw [htgt]
    · unfold routeRequest
      rw [htgt]
  · intro cEnv maxI basePort dataDir now rt m sid sm e hsm hgi hcr
    have hget : getUserIdBySession rt sid now =
        (some sm.userId,
         RouterState.mk (setA rt.sessionMappings sid { sm with lastActivity := now })) := by
      unfold getUserIdBySession
      rw [hsm]
    have hgi2 := getInstanceByUserId_none m sm.userId now hgi
    have hdef := createUserInstance_defaultInstance cEnv maxI basePort dataDir now m sm.userId
    unfold routeTarget
    rw [hget]
    dsimp only
    rw [hgi2]
    dsimp only
    rcases hc : createUserInstance cEnv maxI basePort dataDir now m sm.userId with ⟨r, m2⟩
    rw [hc] at hcr hdef
    cases r with
    | error e2 =>
      dsimp only
      exact hdef
    | ok inst => exact Except.noConfusion hcr
  · intro cEnv maxI basePort dataDir now rt m sid sm hsm huid hmax
    have hget : getUserIdBySession rt sid now =
        (some sm.userId,
         RouterState.mk (setA rt.sessionMappings sid { sm with lastActivity := now })) := by
      unfold getUserIdBySession
      rw [hsm]
    have hgi : getInstanceByUserId m sm.userId now = (none, m) := by
      unfold getInstanceByUserId
      rw [huid]
    have hcr : createUserInstance cEnv maxI basePort dataDir now m sm.userId =
        (.error "Maximum number of instances reached", m) := by
      unfold createUserInstance
      rw [huid]
      unfold createUserInstanceFresh
      rw [if_pos hmax]
    unfold routeTarget
    rw [hget]
    dsimp only
    rw [hgi]
    dsimp only
    rw [hcr]
  · intro cEnv maxI basePort dataDir now rt m sid h
    have hget : getUserIdBySession rt sid now = (none, rt) := by
      unfold getUserIdBySession
      rw [h]
    unfold routeTarget
    rw [hget]
  · intro cEnv fEnv maxI basePort dataDir now rt m sid req h
    unfold routeRequest
    rcases htgt : routeTarget cEnv maxI basePort dataDir now rt m sid with ⟨t?, rt1, m1⟩
    cases t? with
    | none => rfl
    | some i =>
      rw [htgt] at h
      exact Option.noConfusion h

/-- A router binding session s1 to user u1. -/
def rtBound : RouterState := ⟨[("s1", ⟨"s1", "u1", 0, 0⟩)]⟩

/-- A router binding session s2 to user u2 (who has no worker). -/
def rtBound2 : RouterState := ⟨[("s2", ⟨"s2", "u2", 0, 0⟩)]⟩

/-- Witness for C2 at concrete inputs: the bound session reaches the
running user worker with lastActivity touched; a bound user whose worker
creation fails because the child dies during the readiness wait (spawn
error) falls back to the default worker; a bound user without a worker at
the instance cap likewise falls back; an unbound session uses the default
slot; the empty manager yields the no-instance response with the
MCP-instance message. -/
theorem c2_routing_witness :
    ((routeTarget cEnv0 20 3001 "data" 7 rtBound mgrRun "s1").1 =
          some { instRun with lastActivity := 7 } ∧
        (routeRequest cEnv0 fEnvOk 20 3001 "data" 7 rtBound mgrRun "s1" req0).1 =
          (forwardRequest fEnvOk 7 { instRun with lastActivity := 7 } req0).1) ∧
      (routeTarget cEnvDies 20 3001 "data" 7 rtBound2 mgrDefaultOnly "s2").1 =
        mgrDefaultOnly.defaultInstance ∧
      (routeTarget cEnv0 1 3001 "data" 7 rtBound2 mgrRun "s2").1 =
        mgrRun.defaultInstance ∧
      (routeTarget cEnv0 20 3001 "data" 7 ⟨[]⟩ mgrRun "s9").1 =
        mgrRun.defaultInstance ∧
      (routeRequest cEnv0 fEnvOk 20 3001 "data" 0 ⟨[]⟩ ⟨[], [], none⟩ "s1" req0).1 =
        noInstanceResponse req0 ∧
      noInstanceResponse req0 =
        { jsonrpc := "2.0", id := req0.id, result := none,
          error := some
            { code := -32603, message := "No available MCP instance",
              data := none } } := by
  refine ⟨c2_routing.1 cEnv0 fEnvOk 20 3001 "data" 7 rtBound mgrRun "s1" req0
      ⟨"s1", "u1", 0, 0⟩ "i1" instRun rfl rfl rfl rfl,
    ?_,
    c2_routing.2.2.1 cEnv0 1 3001 "data" 7 rtBound2 mgrRun "s2"
      ⟨"s2", "u2", 0, 0⟩ rfl rfl (by decide),
    c2_routing.2.2.2.1 cEnv0 20 3001 "data" 7 ⟨[]⟩ mgrRun "s9" rfl,
    c2_routing.2.2.2.2.1 cEnv0 fEnvOk 20 3001 "data" 0 ⟨[]⟩ ⟨[], [], none⟩ "s1" req0 rfl,
    c2_routing.2.2.2.2.2 req0⟩
  have hw : ∀ inst : MCPInstance,
      waitLoop obsDies 30000 inst 0 0 = .error "Instance process was killed" :=
    fun inst =>
      waitLoop_dies obsDies inst 1 30000 0 0
        (fun i hi => by
          have h0 : i = 0 := by omega
          subst h0
          exact ⟨by decide, by decide⟩)
        (by decide) (by decide)
  have hport : allocatePort mgrDefaultOnly 3001 = .ok 3001 := by
    unfold allocatePort
    dsimp only
    rw [show (1000 : Nat) = 999 + 1 from rfl, List.range_succ_eq_map]
    rw [List.find?_cons_of_pos _ (by decide)]
    rfl
  have hcr : (createUserInstance cEnvDies 20 3001 "data" 7 mgrDefaultOnly "u2").1 =
      .error "Instance process was killed" := by
    have h1 : createUserInstance cEnvDies 20 3001 "data" 7 mgrDefaultOnly "u2" =
        createUserInstanceFresh cEnvDies 20 3001 "data" 7 mgrDefaultOnly "u2" := rfl
    rw [h1]
    exact createUserInstanceFresh_readiness_error cEnvDies 20 3001 "data" 7
      mgrDefaultOnly "u2" 3001 "Instance process was killed" (by decide) hport
      (hw _)
  exact c2_routing.2.1 cEnvDies 20 3001 "data" 7 rtBound2 mgrDefaultOnly "s2"
    ⟨"s2", "u2", 0, 0⟩ "Instance process was killed" rfl rfl hcr

end LarkGate
